import Mathlib

/-!
Verification of the netgear-admin automation script (src/netgear-admin.py)
against its natural-language specification.

The script is a single linear Selenium-driven procedure.  We give a shallow
embedding: pure configuration resolution (`getConfigValue`, `parse_qs`) is
translated to Lean functions; the browser-driving procedures (`run`,
`check_login`, `reboot`, `block_services`, `get`, ...) are translated to
functions that, given an abstract browser environment (`Env`: the DOM of each
page that can be reached and which navigation waits succeed), return the list
of observable browser/logging events they perform together with an
`Except Exn` result modelling Python exceptions / `SystemExit`.
-/

set_option autoImplicit false

/-- Python exceptions that the script can raise.  `nameError` models both
`NameError` and `UnboundLocalError` (referencing an unbound name such as the
never-imported `codecs` module, or the local `value` in `getConfigValue`);
`systemExit` models `SystemExit` carrying the process exit code (a
`SystemExit` raised with a string message exits with code 1). -/
inductive Exn where
  | nameError
  | runtimeError
  | noSuchElement
  | noAlert
  | timeoutError
  | systemExit (code : Nat)
  deriving DecidableEq

/-- Python logging levels used by the script. -/
inductive LogLevel where
  | debug
  | info
  | warning
  | error
  | critical
  deriving DecidableEq

/-- Python values that flow through `getConfigValue`: `None`, booleans (the
default `default=False`), integers (the `verbose` count), strings (CLI flags
and config.json entries) and lists of strings (what `parse_qs` produces). -/
inductive ConfigValue where
  | none
  | bool (b : Bool)
  | int (n : Int)
  | str (s : String)
  | list (l : List String)
  deriving DecidableEq

/-- Python truthiness of a `ConfigValue` (`if value:`). -/
def truthy : ConfigValue → Bool
  | ConfigValue.none => false
  | ConfigValue.bool b => b
  | ConfigValue.int n => n != 0
  | ConfigValue.str s => s != ""
  | ConfigValue.list l => !l.isEmpty

/-- Truthiness of an optional `ConfigValue`; `Option.none` stands for a name
that is not an attribute of the argparse namespace at all. -/
def truthyOpt : Option ConfigValue → Bool
  | Option.none => false
  | Option.some v => truthy v

/-- The argparse namespace produced by `parse_args` (lines 320-331): its
`vars()` dictionary has exactly the six destinations registered there.
`argparse` stores `None` for an absent string option, modelled as
`Option.none`. -/
structure Args where
  verbose : Nat
  browser_name : String
  router_ip : Option String
  username : Option String
  password : Option String
  action : Option String
  deriving DecidableEq

/-- Conversion of an optional CLI string to the Python value stored in the
namespace (`None` or the string). -/
def optStr : Option String → ConfigValue
  | Option.none => ConfigValue.none
  | Option.some s => ConfigValue.str s

/-- Lookup of `vars(args)[name]` (lines 20-21): `Option.some` exactly when
`name in vars(args).keys()`. -/
def argsVal (args : Args) (name : String) : Option ConfigValue :=
  if name == "verbose" then Option.some (ConfigValue.int (Int.ofNat args.verbose))
  else if name == "browser_name" then Option.some (ConfigValue.str args.browser_name)
  else if name == "router_ip" then Option.some (optStr args.router_ip)
  else if name == "username" then Option.some (optStr args.username)
  else if name == "password" then Option.some (optStr args.password)
  else if name == "action" then Option.some (optStr args.action)
  else Option.none

/-- The relevant part of `os.environ`: an optional `QUERY_STRING` and whether
`GATEWAY_INTERFACE` is set (CGI invocation). -/
structure OsEnv where
  query_string : Option String
  gateway_interface : Bool

/-- Value of one hexadecimal digit, as used by percent-decoding in
`urllib.parse.unquote`. -/
def hexDigitVal (c : Char) : Option Nat :=
  if '0' ≤ c ∧ c ≤ '9' then Option.some (c.toNat - '0'.toNat)
  else if 'A' ≤ c ∧ c ≤ 'F' then Option.some (c.toNat - 'A'.toNat + 10)
  else if 'a' ≤ c ∧ c ≤ 'f' then Option.some (c.toNat - 'a'.toNat + 10)
  else Option.none

/-- Percent-decoding as performed by `urllib.parse.unquote`: a valid `%XX`
escape becomes the character with code `XX`, an invalid escape is kept
literally.  (Python decodes percent-escaped bytes as UTF-8; this model decodes
each byte separately, which agrees with Python on ASCII input — the theorems
below only evaluate it on escape-free input.) -/
def pctDecodeFuel : Nat → List Char → List Char
  | _, [] => []
  | 0, l => l
  | Nat.succ fuel, c :: rest =>
    if c = '%' then
      match rest with
      | a :: b :: rest2 =>
        match hexDigitVal a, hexDigitVal b with
        | Option.some ha, Option.some hb => Char.ofNat (16 * ha + hb) :: pctDecodeFuel fuel rest2
        | _, _ => c :: pctDecodeFuel fuel rest
      | _ => c :: pctDecodeFuel fuel rest
    else c :: pctDecodeFuel fuel rest

/-- Percent-decoding entry point; the fuel `l.length` always suffices since
every step consumes at least one character. -/
def pctDecode (l : List Char) : List Char :=
  pctDecodeFuel l.length l

/-- Replacement of `+` by a space, the first step of `unquote_plus` as used by
`parse_qsl` on names and values. -/
def plusToSpace (l : List Char) : List Char :=
  l.map (fun c => if c = '+' then ' ' else c)

/-- The `unquote(s.replace('+', ' '))` applied by `parse_qsl` to each field
name and value. -/
def unquotePlus (l : List Char) : List Char :=
  pctDecode (plusToSpace l)

/-- Splitting of the query string on `&`, as `qs.split('&')` does (so the
empty string yields one empty field). -/
def splitAmp : List Char → List (List Char)
  | [] => [[]]
  | c :: rest =>
    if c = '&' then [] :: splitAmp rest
    else
      match splitAmp rest with
      | [] => [[c]]
      | f :: fs => (c :: f) :: fs

/-- Splitting of one field at its first `=` (`name_value.split('=', 1)`),
`Option.none` when the field contains no `=`. -/
def splitEq1 : List Char → Option (List Char × List Char)
  | [] => Option.none
  | c :: rest =>
    if c = '=' then Option.some ([], rest)
    else
      match splitEq1 rest with
      | Option.none => Option.none
      | Option.some (n, v) => Option.some (c :: n, v)

/-- Processing of one `&`-separated field by `parse_qsl` with the default
`keep_blank_values=False, strict_parsing=False`: empty fields, fields without
`=` and fields with an empty value are dropped; otherwise name and value are
`unquote_plus`-decoded. -/
def qsFieldPair (f : List Char) : Option (String × String) :=
  if f = [] then Option.none
  else
    match splitEq1 f with
    | Option.none => Option.none
    | Option.some (n, v) =>
      if v = [] then Option.none
      else Option.some (String.mk (unquotePlus n), String.mk (unquotePlus v))

/-- The list of `(name, value)` pairs produced by `urllib.parse.parse_qsl`
with default arguments. -/
def parse_qsl (qs : String) : List (String × String) :=
  (splitAmp qs.data).filterMap qsFieldPair

/-- Insertion of one pair into the insertion-ordered dictionary built by
`parse_qs`: an existing key gets the value appended, a new key is added at the
end. -/
def addQsParam (acc : List (String × List String)) (n : String) (v : String) :
    List (String × List String) :=
  if acc.any (fun p => p.1 == n) then
    acc.map (fun p => if p.1 == n then (p.1, p.2 ++ [v]) else p)
  else acc ++ [(n, [v])]

/-- The dictionary `parse_qs(qs)` of line 28: names mapped to the list of all
their values, in insertion order. -/
def parse_qs (qs : String) : List (String × List String) :=
  (parse_qsl qs).foldl (fun acc p => addQsParam acc p.1 p.2) []

/-- Dictionary lookup `params[name]` guarded by `name in params`. -/
def qsLookup (params : List (String × List String)) (name : String) :
    Option (List String) :=
  (params.find? (fun p => p.1 == name)).map (fun p => p.2)

/-- Lookup `config[name]` guarded by `name in config` in the dictionary
loaded from config.json (line 35-37).  The model takes the parsed JSON object
as a parameter; `json.load(open(CONFIG_FILE))` is assumed to succeed (the
file exists and parses). -/
def configLookup (config : List (String × ConfigValue)) (name : String) :
    Option ConfigValue :=
  (config.find? (fun p => p.1 == name)).map (fun p => p.2)

/-- Lines 34-40 of `getConfigValue`: the config.json step and the final
`return value if value else default`.  `bound` is the value the Python local
`value` holds at that point (`Option.none` when it was never assigned, in
which case line 40 raises `UnboundLocalError`). -/
def gcvConfigStep (config : List (String × ConfigValue)) (name : String)
    (default : ConfigValue) (bound : Option ConfigValue) : Except Exn ConfigValue :=
  match configLookup config name with
  | Option.some v => Except.ok (if truthy v then v else default)
  | Option.none =>
    match bound with
    | Option.some v => Except.ok (if truthy v then v else default)
    | Option.none => Except.error Exn.nameError

/-- Lines 25-32 of `getConfigValue`: the query-string step. -/
def gcvQsStep (osenv : OsEnv) (config : List (String × ConfigValue)) (name : String)
    (default : ConfigValue) (bound : Option ConfigValue) : Except Exn ConfigValue :=
  match osenv.query_string with
  | Option.none => gcvConfigStep config name default bound
  | Option.some qs =>
    match qsLookup (parse_qs qs) name with
    | Option.none => gcvConfigStep config name default bound
    | Option.some vs =>
      if truthy (ConfigValue.list vs) then Except.ok (ConfigValue.list vs)
      else gcvConfigStep config name default (Option.some (ConfigValue.list vs))

/-- The function `getConfigValue(args, name, default=False)` of lines 17-40:
command-line value if truthy, else query-string value if present and truthy,
else the config.json step. -/
def getConfigValue (args : Args) (osenv : OsEnv) (config : List (String × ConfigValue))
    (name : String) (default : ConfigValue) : Except Exn ConfigValue :=
  match argsVal args name with
  | Option.some v =>
    if truthy v then Except.ok v
    else gcvQsStep osenv config name default (Option.some v)
  | Option.none => gcvQsStep osenv config name default Option.none

/-- Modelled from the spec (claim C3 wording), config.json step: the value in
the config file when present and truthy, otherwise the supplied default. -/
def resolveSpecConfig (config : List (String × ConfigValue)) (name : String)
    (default : ConfigValue) : ConfigValue :=
  match configLookup config name with
  | Option.some v => if truthy v then v else default
  | Option.none => default

/-- Modelled from the spec (claim C3 wording), query-string step: the value
for the name in the CGI query string when present and truthy, otherwise the
config.json step. -/
def resolveSpecQs (osenv : OsEnv) (config : List (String × ConfigValue)) (name : String)
    (default : ConfigValue) : ConfigValue :=
  match osenv.query_string with
  | Option.none => resolveSpecConfig config name default
  | Option.some qs =>
    match qsLookup (parse_qs qs) name with
    | Option.none => resolveSpecConfig config name default
    | Option.some vs =>
      if truthy (ConfigValue.list vs) then ConfigValue.list vs
      else resolveSpecConfig config name default

/-- Modelled from the spec (claim C3 wording): the command-line argument value
when truthy, otherwise the query-string step. -/
def resolveSpec (args : Args) (osenv : OsEnv) (config : List (String × ConfigValue))
    (name : String) (default : ConfigValue) : ConfigValue :=
  match argsVal args name with
  | Option.some v => if truthy v then v else resolveSpecQs osenv config name default
  | Option.none => resolveSpecQs osenv config name default

/-- A DOM element, restricted to the attributes the script inspects: the
`name` attribute, the `id` attribute, the `value` attribute (read by
`get_attribute` on the `skeyword` radios) and whether the element is a form
whose `action` starts with `multi_login.cgi` (the XPath of line 142). -/
structure Elem where
  name : Option String := Option.none
  id : Option String := Option.none
  value : Option String := Option.none
  isMultiLoginForm : Bool := false
  deriving DecidableEq

/-- A page is its list of elements, in document order (Selenium `find_element`
returns the first match, `find_elements` all matches in order). -/
def Page := List Elem

/-- Selenium `find_element_by_name` as the script uses it: the first element
with the given `name` attribute, `Option.none` standing for the
`NoSuchElementException` it raises when nothing matches. -/
def find_element_by_name (p : Page) (n : String) : Option Elem :=
  List.find? (fun e => e.name == Option.some n) p

/-- Selenium `find_elements_by_name`: all elements with the given `name`
attribute, in order. -/
def find_elements_by_name (p : Page) (n : String) : List Elem :=
  List.filter (fun e => e.name == Option.some n) p

/-- Selenium `find_element_by_id`. -/
def find_element_by_id (p : Page) (i : String) : Option Elem :=
  List.find? (fun e => e.id == Option.some i) p

/-- The lookup of line 142: first form whose action starts with
`multi_login.cgi`. -/
def find_multilogin_form (p : Page) : Option Elem :=
  List.find? (fun e => e.isMultiLoginForm) p

/-- The three URL templates of lines 65-67, identified by which page they
address. -/
inductive Url where
  | start
  | home
  | block
  deriving DecidableEq

/-- Observable events of a run: browser commands and log records. -/
inductive Event where
  | getBrowser
  | navigate (u : Url)
  | waitUrl (timeoutSecs : Nat)
  | sleepSecs (n : Nat)
  | waitPageLoad
  | screenshot
  | errScreenshot
  | execScript
  | click (e : Elem)
  | switchToAlert
  | acceptAlert
  | log (lvl : LogLevel) (msg : String)
  | quitBrowser
  | cgiHeader
  deriving DecidableEq

/-- The constant `ACTION_REBOOT` of line 12. -/
def ACTION_REBOOT : String := "reboot"

/-- The constant `ACTION_BLOCK` of line 13. -/
def ACTION_BLOCK : String := "block"

/-- The constant `ACTION_UNBLOCK` of line 14. -/
def ACTION_UNBLOCK : String := "unblock"

/-- The constructor arguments of `NetgearAdmin.__init__` that the run uses:
`ip`, `username` and `password` (spliced into the URL templates), the
requested `action` (`self.action`, an optional string since `args.action` may
be `None`) and the `debug` screenshot flag. -/
structure AdminCfg where
  ip : String
  username : String
  password : String
  action : Option String
  debug : Bool

/-- The URL `url.format(self.ip, self.username, self.password)` of line 214
applied to the three templates `http://{1}:{2}@{0}/...` of lines 65-67. -/
def urlString (cfg : AdminCfg) : Url → String
  | Url.start => "http://" ++ cfg.username ++ ":" ++ cfg.password ++ "@" ++ cfg.ip ++ "/"
  | Url.home => "http://" ++ cfg.username ++ ":" ++ cfg.password ++ "@" ++ cfg.ip ++ "/ADVANCED_home1.htm"
  | Url.block => "http://" ++ cfg.username ++ ":" ++ cfg.password ++ "@" ++ cfg.ip ++ "/BKS_service.htm"

/-- The abstract browser environment a run executes against: the DOM served
for each page, the page shown after clicking `yes` on the multi-login warning
screen, which `WebDriverWait` attempts of each `get` call succeed (attempt
`i` of the loop of line 220), whether `wait_for_page_load` completes, and
whether clicking the reboot button pops up the confirmation alert. -/
structure Env where
  startPage : Page
  afterYesPage : Page
  homePage : Page
  blockPage : Page
  okStart : Nat → Bool
  okHome : Nat → Bool
  okBlock : Nat → Bool
  loadOk : Bool
  rebootAlert : Bool

/-- Sequencing of two event-producing computations, short-circuiting on a
raised exception exactly as Python statement sequencing does. -/
def trBind {α β : Type} (m : List Event × Except Exn α)
    (f : α → List Event × Except Exn β) : List Event × Except Exn β :=
  match m with
  | (evs, Except.ok a) => (evs ++ (f a).1, (f a).2)
  | (evs, Except.error e) => (evs, Except.error e)

/-- Events of `do_screenshot` (lines 182-196): a screenshot plus a debug log
when the `debug` flag is set, nothing otherwise. -/
def screenshotEvs (debug : Bool) : List Event :=
  if debug then [Event.screenshot, Event.log LogLevel.debug "Screenshot"] else []

/-- Events `error_screenshot` (lines 198-210) manages to perform before it
crashes: it saves a screenshot, logs two error-level records and runs the
page-source script; then line 208 evaluates `codecs`, a module that is never
imported, so a `NameError` is raised and the `logger.error` of line 210 is
never reached. -/
def errorScreenshotEvents : List Event :=
  [Event.errScreenshot,
   Event.log LogLevel.error "Screenshot saved to: webdriver_fail.png",
   Event.log LogLevel.error "Page title",
   Event.execScript]

/-- The exception `error_screenshot` raises: the `NameError` for the unbound
name `codecs`. -/
def errorScreenshotExn : Exn := Exn.nameError

/-- The method `wait_for_page_load` (lines 280-296), parameterised by whether
the page becomes ready (`Env.loadOk`).  When it does not, the
`WebDriverWait` of `wait_for_ajax_load` raises a `TimeoutException` after the
timeout; the too-small-page-source loop of lines 287-296 is subsumed under
the same failure flag (no claim distinguishes the two). -/
def wait_for_page_load (env : Env) : List Event × Except Exn Unit :=
  if env.loadOk then ([Event.waitPageLoad], Except.ok ())
  else ([Event.waitPageLoad], Except.error Exn.timeoutError)

/-- The warning message of line 227. -/
def getWarnMsg (cfg : AdminCfg) (u : Url) : String :=
  "GET " ++ urlString cfg u ++ " failed; trying again"

/-- The retry loop `for x in range(0, 5)` of lines 220-232, with `fuel`
iterations left and `x` the current loop index.  Each iteration waits up to
15 seconds for the browser URL to leave `about:blank`; on success it breaks,
on timeout it logs a warning, issues the navigation again and sleeps a flat 2
seconds.  When the loop completes without breaking, the `else` clause calls
`error_screenshot()` — which raises the `codecs` `NameError` before the
`raise RuntimeError` of line 232 can execute. -/
def getAttempt (cfg : AdminCfg) (u : Url) (ok : Nat → Bool) :
    Nat → Nat → List Event × Except Exn Unit
  | _, 0 => (errorScreenshotEvents, Except.error errorScreenshotExn)
  | x, Nat.succ fuel =>
    if ok x then ([Event.waitUrl 15], Except.ok ())
    else
      let rest := getAttempt cfg u ok (x + 1) fuel
      (Event.waitUrl 15 :: Event.log LogLevel.warning (getWarnMsg cfg u)
         :: Event.navigate u :: Event.sleepSecs 2 :: rest.1,
       rest.2)

/-- The method `get` of lines 212-232 (named `getUrl` here to avoid clashing
with the monadic `get`): format the URL, log it, navigate, then run the
bounded retry loop. -/
def getUrl (cfg : AdminCfg) (u : Url) (ok : Nat → Bool) : List Event × Except Exn Unit :=
  let rest := getAttempt cfg u ok 0 5
  (Event.log LogLevel.info ("GET " ++ urlString cfg u) :: Event.navigate u :: rest.1,
   rest.2)

/-- Common body of `get_start_page` / `get_home_page` / `get_block_page`
(lines 123-136): `get`, `wait_for_page_load`, `do_screenshot`. -/
def getPage (cfg : AdminCfg) (env : Env) (u : Url) (ok : Nat → Bool) :
    List Event × Except Exn Unit :=
  trBind (getUrl cfg u ok) (fun _ =>
    trBind (wait_for_page_load env) (fun _ =>
      (screenshotEvs cfg.debug, Except.ok ())))

/-- The method `get_start_page` (lines 123-126). -/
def get_start_page (cfg : AdminCfg) (env : Env) : List Event × Except Exn Unit :=
  getPage cfg env Url.start env.okStart

/-- The method `get_home_page` (lines 128-131). -/
def get_home_page (cfg : AdminCfg) (env : Env) : List Event × Except Exn Unit :=
  getPage cfg env Url.home env.okHome

/-- The method `get_block_page` (lines 133-136). -/
def get_block_page (cfg : AdminCfg) (env : Env) : List Event × Except Exn Unit :=
  getPage cfg env Url.block env.okBlock

/-- The method `check_login` (lines 138-157), executed on the current page
`cur`.  The first `try` dismisses the multi-login warning screen when
present; its bare `except` swallows any failure inside (missing `yes`
element, failing page-load wait) and logs the no-multi-login debug message.
The second `try` looks for an element named `logout`.  Returns the events,
the page the browser shows afterwards, and the boolean result. -/
def check_login (env : Env) (debug : Bool) (cur : Page) :
    List Event × Page × Bool :=
  let step1 : List Event × Page :=
    match find_multilogin_form cur with
    | Option.none => ([Event.log LogLevel.debug "No Multi login warning screen detected"], cur)
    | Option.some _ =>
      match find_element_by_name cur "yes" with
      | Option.none =>
        ([Event.log LogLevel.info "Multi login warning screen detected",
          Event.log LogLevel.debug "No Multi login warning screen detected"], cur)
      | Option.some y =>
        if env.loadOk then
          ([Event.log LogLevel.info "Multi login warning screen detected",
            Event.click y, Event.waitPageLoad] ++ screenshotEvs debug,
           env.afterYesPage)
        else
          ([Event.log LogLevel.info "Multi login warning screen detected",
            Event.click y, Event.waitPageLoad,
            Event.log LogLevel.debug "No Multi login warning screen detected"],
           env.afterYesPage)
  match find_element_by_name step1.2 "logout" with
  | Option.some _ => (step1.1, step1.2, true)
  | Option.none =>
    (step1.1 ++ [Event.log LogLevel.debug "Logout button not found"], step1.2, false)

/-- The method `reboot` (lines 159-163): click the element with id `reboot`,
sleep one second, switch to the confirmation alert and accept it.  A missing
element raises `NoSuchElementException`; a missing alert raises
`NoAlertPresentException`. -/
def reboot (env : Env) (cur : Page) : List Event × Except Exn Unit :=
  match find_element_by_id cur "reboot" with
  | Option.none => ([], Except.error Exn.noSuchElement)
  | Option.some e =>
    if env.rebootAlert then
      ([Event.click e, Event.sleepSecs 1, Event.switchToAlert, Event.acceptAlert],
       Except.ok ())
    else
      ([Event.click e, Event.sleepSecs 1, Event.switchToAlert],
       Except.error Exn.noAlert)

/-- The loop condition of line 170: the radio matches when blocking and its
`value` attribute is `perschedule`, or when unblocking and it is `never`
(`get_attribute` yields `None`, modelled `Option.none`, when the attribute is
absent). -/
def radioMatches (value : Bool) (r : Elem) : Bool :=
  (value && (r.value == Option.some "perschedule"))
    || (!value && (r.value == Option.some "never"))

/-- The `for radio in radios` loop of lines 168-180: the first matching radio
is clicked, then the `apply` element, with a one-second sleep and a page-load
wait; without a match the loop falls through and the method returns
`False`. -/
def blockLoop (env : Env) (debug : Bool) (ap : Elem) (value : Bool) :
    List Elem → List Event × Except Exn Bool
  | [] => ([], Except.ok false)
  | r :: rest =>
    if radioMatches value r then
      let pre : List Event :=
        [Event.log LogLevel.info "Clicking block option", Event.click r]
          ++ screenshotEvs debug
          ++ [Event.log LogLevel.info "Applying block option", Event.click ap,
              Event.sleepSecs 1]
      match wait_for_page_load env with
      | (wevs, Except.ok _) => (pre ++ wevs ++ screenshotEvs debug, Except.ok true)
      | (wevs, Except.error e) => (pre ++ wevs, Except.error e)
    else blockLoop env debug ap value rest

/-- The method `block_services` (lines 165-180): look up the `apply` element
first (raising `NoSuchElementException` when absent), collect the `skeyword`
radios and run the loop. -/
def block_services (env : Env) (debug : Bool) (cur : Page) (value : Bool) :
    List Event × Except Exn Bool :=
  match find_element_by_name cur "apply" with
  | Option.none => ([], Except.error Exn.noSuchElement)
  | Option.some ap => blockLoop env debug ap value (find_elements_by_name cur "skeyword")

/-- The action dispatch of lines 105-113: the two separate `if` statements on
`self.action`.  The result of `block_services` is discarded (line 113). -/
def actionSteps (cfg : AdminCfg) (env : Env) : List Event × Except Exn Unit :=
  trBind
    (if cfg.action == Option.some ACTION_REBOOT then
       trBind (get_home_page cfg env) (fun _ => reboot env env.homePage)
     else ([], Except.ok ()))
    (fun _ =>
      if cfg.action == Option.some ACTION_BLOCK
          || cfg.action == Option.some ACTION_UNBLOCK then
        trBind (get_block_page cfg env) (fun _ =>
          let r := block_services env cfg.debug env.blockPage
            (cfg.action == Option.some ACTION_BLOCK)
          (r.1, r.2.map (fun _ => ())))
      else ([], Except.ok ()))

/-- The method `run` (lines 93-121).  `get_browser` is modelled as succeeding
(a supported browser name is configured); on a confirmed login the two action
`if`s execute and the browser is quit; when `check_login` fails the script
logs a critical record, quits the browser and calls `exit(1)`, raising
`SystemExit(1)` which the `except Exception` handler does not intercept; any
`Exception` raised in the body reaches the handler of lines 118-121, which
quits the browser and re-raises. -/
def run (cfg : AdminCfg) (env : Env) : List Event × Except Exn Unit :=
  match get_start_page cfg env with
  | (evs, Except.error e) =>
    (Event.getBrowser :: evs ++ [Event.quitBrowser], Except.error e)
  | (evs, Except.ok _) =>
    match check_login env cfg.debug env.startPage with
    | (evsL, _, false) =>
      (Event.getBrowser :: evs ++ evsL
         ++ [Event.log LogLevel.critical "Login failed", Event.quitBrowser],
       Except.error (Exn.systemExit 1))
    | (evsL, _, true) =>
      match actionSteps cfg env with
      | (evsA, Except.ok _) =>
        (Event.getBrowser :: evs ++ evsL ++ evsA ++ [Event.quitBrowser], Except.ok ())
      | (evsA, Except.error e) =>
        (Event.getBrowser :: evs ++ evsL ++ evsA ++ [Event.quitBrowser], Except.error e)

/-- Python `str()` of a `ConfigValue`, as applied by `url.format` on line 214
to whatever values reached the constructor. -/
def pyStr : ConfigValue → String
  | ConfigValue.none => "None"
  | ConfigValue.bool b => if b then "True" else "False"
  | ConfigValue.int n => toString n
  | ConfigValue.str s => s
  | ConfigValue.list l =>
    "[" ++ String.intercalate ", " (l.map (fun s => "\x27" ++ s ++ "\x27")) ++ "]"

/-- The exit code the Python interpreter reports for a run result: 0 on
normal completion, the carried code for `SystemExit`, 1 for any other
uncaught exception. -/
def pyExitCode : Except Exn Unit → Nat
  | Except.ok _ => 0
  | Except.error (Exn.systemExit c) => c
  | Except.error _ => 1

/-- The function `main` of lines 345-390 (named `mainProc` here since `main`
is reserved): resolve the four configuration values, validate them, construct
`NetgearAdmin` — passing `args.action`, the raw CLI value, as the action
(line 380) — run it, and print the CGI header when invoked through CGI.  The
`raise SystemExit(msg)` statements exit with code 1. -/
def mainProc (args : Args) (osenv : OsEnv) (config : List (String × ConfigValue))
    (env : Env) : List Event × Except Exn Unit :=
  let debug : Bool := 0 < args.verbose
  match getConfigValue args osenv config "action" (ConfigValue.bool false) with
  | Except.error e => ([], Except.error e)
  | Except.ok action =>
  match getConfigValue args osenv config "router_ip" (ConfigValue.bool false) with
  | Except.error e => ([], Except.error e)
  | Except.ok router_ip =>
  match getConfigValue args osenv config "username" (ConfigValue.str "admin") with
  | Except.error e => ([], Except.error e)
  | Except.ok username =>
  match getConfigValue args osenv config "password" (ConfigValue.bool false) with
  | Except.error e => ([], Except.error e)
  | Except.ok password =>
  if !truthy router_ip || !truthy username || !truthy password then
    ([Event.log LogLevel.critical "ERROR: you need to specify router IP, username and password through command line arguments or config.json"],
     Except.error (Exn.systemExit 1))
  else if !truthy action then
    ([Event.log LogLevel.critical "ERROR: you need to specify at least one action to perform"],
     Except.error (Exn.systemExit 1))
  else
    let cfg : AdminCfg :=
      { ip := pyStr router_ip
        username := pyStr username
        password := pyStr password
        action := args.action
        debug := debug }
    trBind (run cfg env) (fun _ =>
      (if osenv.gateway_interface then [Event.cgiHeader] else [], Except.ok ()))

/-! Lemmas about the configuration-resolution chain. -/

lemma gcvConfigStep_eq_spec (config : List (String × ConfigValue)) (name : String)
    (default : ConfigValue) (av : ConfigValue) (h : truthy av = false) :
    gcvConfigStep config name default (Option.some av)
      = Except.ok (resolveSpecConfig config name default) := by
  unfold gcvConfigStep resolveSpecConfig
  cases configLookup config name with
  | none => simp [h]
  | some v => rfl

lemma gcvQsStep_eq_spec (osenv : OsEnv) (config : List (String × ConfigValue))
    (name : String) (default : ConfigValue) (av : ConfigValue) (h : truthy av = false) :
    gcvQsStep osenv config name default (Option.some av)
      = Except.ok (resolveSpecQs osenv config name default) := by
  cases hq : osenv.query_string with
  | none =>
    simp [gcvQsStep, resolveSpecQs, hq, gcvConfigStep_eq_spec config name default av h]
  | some qs =>
    cases hl : qsLookup (parse_qs qs) name with
    | none =>
      simp [gcvQsStep, resolveSpecQs, hq, hl, gcvConfigStep_eq_spec config name default av h]
    | some vs =>
      cases ht : truthy (ConfigValue.list vs) with
      | true => simp [gcvQsStep, resolveSpecQs, hq, hl, ht]
      | false =>
        simp [gcvQsStep, resolveSpecQs, hq, hl, ht,
          gcvConfigStep_eq_spec config name default _ ht]

/-- Claim C3: for every configuration name the program looks up (`action`,
`router_ip`, `username`, `password`), `getConfigValue` resolves in the
precedence order given by the spec: truthy command-line value, else
query-string value when present and truthy, else truthy config.json value,
else the supplied default (`resolveSpec` is that precedence order written
out). -/
theorem getConfigValue_precedence (args : Args) (osenv : OsEnv)
    (config : List (String × ConfigValue)) (default : ConfigValue) (name : String)
    (h : name = "action" ∨ name = "router_ip" ∨ name = "username" ∨ name = "password") :
    getConfigValue args osenv config name default
      = Except.ok (resolveSpec args osenv config name default) := by
  have hsome : ∃ av, argsVal args name = Option.some av := by
    rcases h with h | h | h | h <;> subst h <;> exact ⟨_, rfl⟩
  rcases hsome with ⟨av, hav⟩
  unfold getConfigValue resolveSpec
  rw [hav]
  cases ht : truthy av with
  | true => simp [ht]
  | false => simp [ht, gcvQsStep_eq_spec osenv config name default av ht]

/-- Sample argparse namespace: CLI supplies nothing but the defaults. -/
def argsNone : Args :=
  { verbose := 0
    browser_name := "chrome-headless"
    router_ip := Option.none
    username := Option.none
    password := Option.none
    action := Option.none }

/-- Sample environment with `router_ip` in the query string. -/
def osenvQs : OsEnv :=
  { query_string := Option.some "router_ip=10.0.0.1", gateway_interface := false }

/-- Witness for C3 at a concrete input: with no CLI value and
`router_ip=10.0.0.1` in the query string, `getConfigValue` equals the spec
precedence order. -/
theorem getConfigValue_precedence_witness :
    getConfigValue argsNone osenvQs [("router_ip", ConfigValue.str "9.9.9.9")]
        "router_ip" (ConfigValue.bool false)
      = Except.ok (resolveSpec argsNone osenvQs [("router_ip", ConfigValue.str "9.9.9.9")]
        "router_ip" (ConfigValue.bool false)) :=
  getConfigValue_precedence argsNone osenvQs [("router_ip", ConfigValue.str "9.9.9.9")]
    (ConfigValue.bool false) "router_ip" (Or.inr (Or.inl rfl))

/-! Lemmas about `parse_qs` on plain (escape-free) query strings. -/

/-- A character without a special role in a query string. -/
def qsPlainChar (c : Char) : Bool :=
  !(c == '&' || c == '=' || c == '%' || c == '+')

/-- A non-empty string of plain query-string characters. -/
def qsPlain (s : String) : Bool :=
  (s != "") && s.data.all qsPlainChar

lemma pctDecodeFuel_plain (fuel : Nat) (l : List Char) (h : ∀ c ∈ l, c ≠ '%') :
    pctDecodeFuel fuel l = l := by
  induction fuel generalizing l with
  | zero => cases l <;> rfl
  | succ n ih =>
    cases l with
    | nil => rfl
    | cons c rest =>
      have hc : c ≠ '%' := h c (List.mem_cons_self c rest)
      simp [pctDecodeFuel, hc, ih rest (fun d hd => h d (List.mem_cons_of_mem c hd))]

lemma plusToSpace_plain (l : List Char) (h : ∀ c ∈ l, c ≠ '+') :
    plusToSpace l = l := by
  induction l with
  | nil => rfl
  | cons c rest ih =>
    have hc : c ≠ '+' := h c (List.mem_cons_self c rest)
    unfold plusToSpace at ih ⊢
    rw [List.map_cons, if_neg hc, ih (fun d hd => h d (List.mem_cons_of_mem c hd))]

lemma unquotePlus_plain (l : List Char) (h : ∀ c ∈ l, qsPlainChar c = true) :
    unquotePlus l = l := by
  have hplus : ∀ c ∈ l, c ≠ '+' := by
    intro c hc heq
    have := h c hc
    subst heq
    simp [qsPlainChar] at this
  have hpct : ∀ c ∈ l, c ≠ '%' := by
    intro c hc heq
    have := h c hc
    subst heq
    simp [qsPlainChar] at this
  unfold unquotePlus pctDecode
  rw [plusToSpace_plain l hplus]
  exact pctDecodeFuel_plain l.length l hpct

lemma splitAmp_no_amp (l : List Char) (h : ∀ c ∈ l, c ≠ '&') :
    splitAmp l = [l] := by
  induction l with
  | nil => rfl
  | cons c rest ih =>
    have hc : c ≠ '&' := h c (List.mem_cons_self c rest)
    rw [splitAmp, if_neg hc, ih (fun d hd => h d (List.mem_cons_of_mem c hd))]

lemma splitEq1_append (n v : List Char) (h : ∀ c ∈ n, c ≠ '=') :
    splitEq1 (n ++ '=' :: v) = Option.some (n, v) := by
  induction n with
  | nil => simp [splitEq1]
  | cons c rest ih =>
    have hc : c ≠ '=' := h c (List.mem_cons_self c rest)
    rw [List.cons_append, splitEq1, if_neg hc,
      ih (fun d hd => h d (List.mem_cons_of_mem c hd))]

/-- A plain `name=value` query string parses to the singleton dictionary
mapping `name` to the one-element list `[value]`. -/
lemma parse_qs_single (name v : String) (hn : qsPlain name = true) (hv : qsPlain v = true) :
    parse_qs (name ++ "=" ++ v) = [(name, [v])] := by
  have hnchars : ∀ c ∈ name.data, qsPlainChar c = true := by
    have := (Bool.and_eq_true _ _).mp hn
    exact fun c hc => (List.all_eq_true.mp this.2) c hc
  have hvchars : ∀ c ∈ v.data, qsPlainChar c = true := by
    have := (Bool.and_eq_true _ _).mp hv
    exact fun c hc => (List.all_eq_true.mp this.2) c hc
  have hdata : (name ++ "=" ++ v).data = name.data ++ '=' :: v.data := by
    rw [String.data_append, String.data_append]
    simp
  have hnoamp : ∀ c ∈ name.data ++ '=' :: v.data, c ≠ '&' := by
    intro c hc heq
    subst heq
    rcases List.mem_append.mp hc with hc | hc
    · simpa [qsPlainChar] using hnchars _ hc
    · rcases List.mem_cons.mp hc with hc | hc
      · exact absurd hc (by decide)
      · simpa [qsPlainChar] using hvchars _ hc
  have hnoeq : ∀ c ∈ name.data, c ≠ '=' := by
    intro c hc heq
    subst heq
    simpa [qsPlainChar] using hnchars _ hc
  have hnne : name.data ≠ [] := by
    intro habs
    have h1 := (Bool.and_eq_true _ _).mp hn
    have : name = "" := by
      cases name
      simp_all
    simp [this] at h1
  have hvne : v.data ≠ [] := by
    intro habs
    have h1 := (Bool.and_eq_true _ _).mp hv
    have : v = "" := by
      cases v
      simp_all
    simp [this] at h1
  have hfield : qsFieldPair (name.data ++ '=' :: v.data)
      = Option.some (name, v) := by
    have hne : name.data ++ '=' :: v.data ≠ [] := by simp
    simp only [qsFieldPair, if_neg hne, splitEq1_append name.data v.data hnoeq]
    simp [hvne, unquotePlus_plain name.data hnchars, unquotePlus_plain v.data hvchars]
  unfold parse_qs parse_qsl
  rw [hdata, splitAmp_no_amp _ hnoamp]
  simp [hfield, addQsParam]

lemma qsLookup_single (name : String) (vs : List String) :
    qsLookup [(name, vs)] name = Option.some vs := by
  simp [qsLookup, List.find?]

/-- Claim C9: when a configuration value is resolved from the CGI query
string, `getConfigValue` returns the list of strings produced by `parse_qs`
(here a singleton list), not a single string. -/
theorem getConfigValue_qs_list (args : Args) (osenv : OsEnv)
    (config : List (String × ConfigValue)) (default : ConfigValue)
    (name v : String)
    (hn : qsPlain name = true) (hv : qsPlain v = true)
    (hcli : truthyOpt (argsVal args name) = false)
    (hqs : osenv.query_string = Option.some (name ++ "=" ++ v)) :
    getConfigValue args osenv config name default = Except.ok (ConfigValue.list [v]) ∧
    ∀ s, getConfigValue args osenv config name default ≠ Except.ok (ConfigValue.str s) := by
  have hmain : ∀ bound, gcvQsStep osenv config name default bound
      = Except.ok (ConfigValue.list [v]) := by
    intro bound
    simp only [gcvQsStep, hqs, parse_qs_single name v hn hv, qsLookup_single]
    simp [truthy]
  have hfirst : getConfigValue args osenv config name default
      = Except.ok (ConfigValue.list [v]) := by
    cases hav : argsVal args name with
    | none =>
      simp only [getConfigValue, hav]
      exact hmain Option.none
    | some av =>
      have ht : truthy av = false := by
        rw [hav] at hcli
        simpa [truthyOpt] using hcli
      simp only [getConfigValue, hav, ht]
      simp only [Bool.false_eq_true, if_false]
      exact hmain (Option.some av)
  refine ⟨hfirst, ?_⟩
  intro s habs
  rw [hfirst] at habs
  exact absurd (Except.ok.inj habs) (by simp)

/-- Witness for C9 at a concrete input: `router_ip=10.0.0.1` in the query
string yields the list `["10.0.0.1"]`. -/
theorem getConfigValue_qs_list_witness :
    getConfigValue argsNone osenvQs [] "router_ip" (ConfigValue.bool false)
      = Except.ok (ConfigValue.list ["10.0.0.1"]) :=
  (getConfigValue_qs_list argsNone osenvQs [] (ConfigValue.bool false)
    "router_ip" "10.0.0.1" (by decide) (by decide) rfl rfl).1

/-! Event classifiers and lemmas about the traces of the browser procedures. -/

/-- Test for a navigation event. -/
def isNavigate : Event → Bool
  | Event.navigate _ => true
  | _ => false

/-- Test for a click event. -/
def isClick : Event → Bool
  | Event.click _ => true
  | _ => false

/-- Test for a sleep event. -/
def isSleep : Event → Bool
  | Event.sleepSecs _ => true
  | _ => false

/-- Test for a navigation-wait event. -/
def isWaitUrl : Event → Bool
  | Event.waitUrl _ => true
  | _ => false

/-- Test for an error-level log record. -/
def isErrorLog : Event → Bool
  | Event.log LogLevel.error _ => true
  | _ => false

/-- Test for a critical-level log record. -/
def isCriticalLog : Event → Bool
  | Event.log LogLevel.critical _ => true
  | _ => false

/-- Test for a log record at error level or above. -/
def isErrorLevelLog : Event → Bool
  | Event.log LogLevel.error _ => true
  | Event.log LogLevel.critical _ => true
  | _ => false

lemma getAttempt_all (cfg : AdminCfg) (u : Url) (ok : Nat → Bool) (p : Event → Prop)
    (hw : p (Event.waitUrl 15))
    (hlg : p (Event.log LogLevel.warning (getWarnMsg cfg u)))
    (hn : p (Event.navigate u)) (hs : p (Event.sleepSecs 2))
    (herr : ∀ e ∈ errorScreenshotEvents, p e) :
    ∀ (fuel x : Nat), ∀ e ∈ (getAttempt cfg u ok x fuel).1, p e := by
  intro fuel
  induction fuel with
  | zero => intro x; exact herr
  | succ n ih =>
    intro x
    by_cases hx : ok x = true
    · simp only [getAttempt, hx, if_true]
      exact List.forall_mem_cons.mpr ⟨hw, by simp⟩
    · simp only [getAttempt, hx, if_false]
      exact List.forall_mem_cons.mpr ⟨hw, List.forall_mem_cons.mpr ⟨hlg,
        List.forall_mem_cons.mpr ⟨hn, List.forall_mem_cons.mpr ⟨hs, ih (x + 1)⟩⟩⟩⟩

lemma screenshotEvs_all (debug : Bool) (p : Event → Prop)
    (hsc : p Event.screenshot) (hsd : p (Event.log LogLevel.debug "Screenshot")) :
    ∀ e ∈ screenshotEvs debug, p e := by
  cases debug with
  | true => simp [screenshotEvs]; exact ⟨hsc, hsd⟩
  | false => simp [screenshotEvs]

lemma getPage_all (cfg : AdminCfg) (env : Env) (u : Url) (ok : Nat → Bool) (p : Event → Prop)
    (hi : p (Event.log LogLevel.info ("GET " ++ urlString cfg u)))
    (hw : p (Event.waitUrl 15))
    (hlg : p (Event.log LogLevel.warning (getWarnMsg cfg u)))
    (hn : p (Event.navigate u)) (hs : p (Event.sleepSecs 2))
    (herr : ∀ e ∈ errorScreenshotEvents, p e)
    (hpl : p Event.waitPageLoad)
    (hsc : p Event.screenshot) (hsd : p (Event.log LogLevel.debug "Screenshot")) :
    ∀ e ∈ (getPage cfg env u ok).1, p e := by
  rcases hA : getAttempt cfg u ok 0 5 with ⟨A, r⟩
  have hAe : ∀ e ∈ A, p e := by
    have h := getAttempt_all cfg u ok p hw hlg hn hs herr 5 0
    rw [hA] at h
    exact h
  have hshots : ∀ e ∈ screenshotEvs cfg.debug, p e := screenshotEvs_all cfg.debug p hsc hsd
  have hone : ∀ e ∈ [Event.waitPageLoad], p e := by
    intro e he
    simp at he
    subst he
    exact hpl
  cases r with
  | error ex =>
    simp only [getPage, getUrl, trBind, hA]
    exact List.forall_mem_cons.mpr ⟨hi, List.forall_mem_cons.mpr ⟨hn, hAe⟩⟩
  | ok a =>
    cases hL : env.loadOk with
    | true =>
      simp only [getPage, getUrl, trBind, hA, wait_for_page_load, hL, if_true]
      refine List.forall_mem_cons.mpr ⟨hi, List.forall_mem_cons.mpr ⟨hn, ?_⟩⟩
      exact List.forall_mem_append.mpr ⟨hAe, List.forall_mem_append.mpr ⟨hone, hshots⟩⟩
    | false =>
      simp only [getPage, getUrl, trBind, hA, wait_for_page_load, hL, if_false]
      refine List.forall_mem_cons.mpr ⟨hi, List.forall_mem_cons.mpr ⟨hn, ?_⟩⟩
      exact List.forall_mem_append.mpr ⟨hAe, hone⟩

lemma check_login_all (env : Env) (debug : Bool) (cur : Page) (p : Event → Prop)
    (h1 : p (Event.log LogLevel.debug "No Multi login warning screen detected"))
    (h2 : p (Event.log LogLevel.info "Multi login warning screen detected"))
    (h3 : ∀ y, find_element_by_name cur "yes" = Option.some y → p (Event.click y))
    (h4 : p Event.waitPageLoad)
    (h5 : p Event.screenshot) (h6 : p (Event.log LogLevel.debug "Screenshot"))
    (h7 : p (Event.log LogLevel.debug "Logout button not found")) :
    ∀ e ∈ (check_login env debug cur).1, p e := by
  have hshots : ∀ e ∈ screenshotEvs debug, p e := screenshotEvs_all debug p h5 h6
  have hnil : ∀ e ∈ ([] : List Event), p e := by simp
  rcases hm : find_multilogin_form cur with _ | m
  · rcases hlo : find_element_by_name cur "logout" with _ | lo
    · simp only [check_login, hm, hlo]
      exact List.forall_mem_cons.mpr ⟨h1, List.forall_mem_cons.mpr ⟨h7, hnil⟩⟩
    · simp only [check_login, hm, hlo]
      exact List.forall_mem_cons.mpr ⟨h1, hnil⟩
  · rcases hy : find_element_by_name cur "yes" with _ | y
    · rcases hlo : find_element_by_name cur "logout" with _ | lo
      · simp only [check_login, hm, hy, hlo]
        exact List.forall_mem_cons.mpr ⟨h2, List.forall_mem_cons.mpr ⟨h1,
          List.forall_mem_cons.mpr ⟨h7, hnil⟩⟩⟩
      · simp only [check_login, hm, hy, hlo]
        exact List.forall_mem_cons.mpr ⟨h2, List.forall_mem_cons.mpr ⟨h1, hnil⟩⟩
    · have hcy := h3 y hy
      cases hL : env.loadOk with
      | true =>
        rcases hlo : find_element_by_name env.afterYesPage "logout" with _ | lo
        · simp only [check_login, hm, hy, hL, if_true, hlo]
          refine List.forall_mem_append.mpr ⟨?_, ?_⟩
          · exact List.forall_mem_cons.mpr ⟨h2, List.forall_mem_cons.mpr ⟨hcy,
              List.forall_mem_append.mpr ⟨List.forall_mem_cons.mpr ⟨h4, hnil⟩, hshots⟩⟩⟩
          · exact List.forall_mem_cons.mpr ⟨h7, hnil⟩
        · simp only [check_login, hm, hy, hL, if_true, hlo]
          exact List.forall_mem_cons.mpr ⟨h2, List.forall_mem_cons.mpr ⟨hcy,
            List.forall_mem_append.mpr ⟨List.forall_mem_cons.mpr ⟨h4, hnil⟩, hshots⟩⟩⟩
      | false =>
        rcases hlo : find_element_by_name env.afterYesPage "logout" with _ | lo
        · simp only [check_login, hm, hy, hL, Bool.false_eq_true, if_false, hlo]
          refine List.forall_mem_append.mpr ⟨?_, ?_⟩
          · exact List.forall_mem_cons.mpr ⟨h2, List.forall_mem_cons.mpr ⟨hcy,
              List.forall_mem_cons.mpr ⟨h4, List.forall_mem_cons.mpr ⟨h1, hnil⟩⟩⟩⟩
          · exact List.forall_mem_cons.mpr ⟨h7, hnil⟩
        · simp only [check_login, hm, hy, hL, Bool.false_eq_true, if_false, hlo]
          exact List.forall_mem_cons.mpr ⟨h2, List.forall_mem_cons.mpr ⟨hcy,
            List.forall_mem_cons.mpr ⟨h4, List.forall_mem_cons.mpr ⟨h1, hnil⟩⟩⟩⟩

lemma errorScreenshotEvents_no_click : ∀ e ∈ errorScreenshotEvents, isClick e = false := by
  decide

lemma getPage_no_click (cfg : AdminCfg) (env : Env) (u : Url) (ok : Nat → Bool)
    (el : Elem) : Event.click el ∉ (getPage cfg env u ok).1 := by
  intro hmem
  have h := getPage_all cfg env u ok (fun e => isClick e = false)
    rfl rfl rfl rfl rfl errorScreenshotEvents_no_click rfl rfl rfl
    (Event.click el) hmem
  simp [isClick] at h

lemma getPage_nav_eq (cfg : AdminCfg) (env : Env) (u : Url) (ok : Nat → Bool)
    (u' : Url) (h : Event.navigate u' ∈ (getPage cfg env u ok).1) : u' = u := by
  have herr : ∀ e ∈ errorScreenshotEvents, ∀ w, e = Event.navigate w → w = u := by
    intro e he w hw
    subst hw
    simp [errorScreenshotEvents] at he
  have hall := getPage_all cfg env u ok (fun e => ∀ w, e = Event.navigate w → w = u)
    (by intro w hw; cases hw) (by intro w hw; cases hw) (by intro w hw; cases hw)
    (by intro w hw; injection hw with h2; exact h2.symm)
    (by intro w hw; cases hw) herr
    (by intro w hw; cases hw) (by intro w hw; cases hw) (by intro w hw; cases hw)
    (Event.navigate u') h
  exact hall u' rfl

lemma check_login_click (env : Env) (debug : Bool) (cur : Page) (el : Elem)
    (h : Event.click el ∈ (check_login env debug cur).1) :
    find_element_by_name cur "yes" = Option.some el := by
  have hall := check_login_all env debug cur
    (fun e => ∀ x, e = Event.click x → find_element_by_name cur "yes" = Option.some x)
    (by intro x hx; cases hx) (by intro x hx; cases hx)
    (by intro y hy x hx; injection hx with h2; subst h2; exact hy)
    (by intro x hx; cases hx) (by intro x hx; cases hx)
    (by intro x hx; cases hx) (by intro x hx; cases hx)
    (Event.click el) h
  exact hall el rfl

lemma check_login_no_nav (env : Env) (debug : Bool) (cur : Page) (u : Url) :
    Event.navigate u ∉ (check_login env debug cur).1 := by
  intro hmem
  have h := check_login_all env debug cur (fun e => isNavigate e = false)
    rfl rfl (fun _ _ => rfl) rfl rfl rfl rfl
    (Event.navigate u) hmem
  simp [isNavigate] at h

lemma check_login_no_errorLog (env : Env) (debug : Bool) (cur : Page) :
    ∀ e ∈ (check_login env debug cur).1, isErrorLevelLog e = false :=
  check_login_all env debug cur (fun e => isErrorLevelLog e = false)
    rfl rfl (fun _ _ => rfl) rfl rfl rfl rfl

/-- When the first wait of the retry loop succeeds and the page loads, a page
fetch is the four-step trace followed by the optional debug screenshot. -/
lemma getPage_first_try (cfg : AdminCfg) (env : Env) (u : Url) (ok : Nat → Bool)
    (h0 : ok 0 = true) (hL : env.loadOk = true) :
    getPage cfg env u ok
      = (Event.log LogLevel.info ("GET " ++ urlString cfg u) :: Event.navigate u
           :: Event.waitUrl 15 :: Event.waitPageLoad :: screenshotEvs cfg.debug,
         Except.ok ()) := by
  have hnum : (5 : Nat) = Nat.succ 4 := rfl
  have h5 : getAttempt cfg u ok 0 5 = ([Event.waitUrl 15], Except.ok ()) := by
    rw [hnum]
    simp only [getAttempt, h0, if_true]
  simp only [getPage, getUrl, h5, trBind, wait_for_page_load, hL, if_true]
  simp

/-! Sample fixtures used by the concrete witnesses. -/

/-- A logout button, the login indicator of line 153. -/
def logoutE : Elem := { name := Option.some "logout" }

/-- The reboot button of line 160. -/
def rebootE : Elem := { id := Option.some "reboot" }

/-- The apply button of line 166. -/
def applyE : Elem := { name := Option.some "apply" }

/-- The per-schedule radio of the block-services page. -/
def radioPer : Elem := { name := Option.some "skeyword", value := Option.some "perschedule" }

/-- The never radio of the block-services page. -/
def radioNev : Elem := { name := Option.some "skeyword", value := Option.some "never" }

/-- A sample constructor configuration requesting the reboot action. -/
def cfgSample : AdminCfg :=
  { ip := "10.0.0.1", username := "admin", password := "pw"
    action := Option.some "reboot", debug := false }

/-- A well-behaved router environment: every page loads first try and shows
the expected elements. -/
def happyEnv : Env :=
  { startPage := [logoutE]
    afterYesPage := [logoutE]
    homePage := [rebootE]
    blockPage := [applyE, radioPer, radioNev]
    okStart := fun _ => true
    okHome := fun _ => true
    okBlock := fun _ => true
    loadOk := true
    rebootAlert := true }

/-- An environment whose start page shows no logout element, so the login
check fails. -/
def loginFailEnv : Env := { happyEnv with startPage := [] }

/-- Claim C1: when `check_login` returns `False`, the run logs a critical
record and terminates with `SystemExit(1)` (process exit code 1), without
navigating to the home or block page, and the only element it can have
clicked is the multi-login `yes` button of the start page — no action element
is clicked. -/
theorem run_login_failure (cfg : AdminCfg) (env : Env)
    (hstart : (get_start_page cfg env).2 = Except.ok ())
    (hlogin : (check_login env cfg.debug env.startPage).2.2 = false) :
    (run cfg env).2 = Except.error (Exn.systemExit 1) ∧
    pyExitCode (run cfg env).2 = 1 ∧
    Event.log LogLevel.critical "Login failed" ∈ (run cfg env).1 ∧
    Event.navigate Url.home ∉ (run cfg env).1 ∧
    Event.navigate Url.block ∉ (run cfg env).1 ∧
    (∀ el, Event.click el ∈ (run cfg env).1 →
      find_element_by_name env.startPage "yes" = Option.some el) := by
  rcases hg : get_start_page cfg env with ⟨evs, r⟩
  have hr : r = Except.ok () := by rw [hg] at hstart; exact hstart
  subst hr
  have hevs : (getPage cfg env Url.start env.okStart).1 = evs := by
    have : get_start_page cfg env = getPage cfg env Url.start env.okStart := rfl
    rw [this] at hg
    rw [hg]
  rcases hc : check_login env cfg.debug env.startPage with ⟨evsL, p1, b⟩
  have hb : b = false := by rw [hc] at hlogin; exact hlogin
  subst hb
  have hevsL : (check_login env cfg.debug env.startPage).1 = evsL := by rw [hc]
  have hrun : run cfg env
      = (Event.getBrowser :: evs ++ evsL
           ++ [Event.log LogLevel.critical "Login failed", Event.quitBrowser],
         Except.error (Exn.systemExit 1)) := by
    simp only [run, hg, hc]
  rw [hrun]
  refine ⟨rfl, rfl, by simp, ?_, ?_, ?_⟩
  · intro hmem
    simp only [List.cons_append, List.mem_cons, List.mem_append] at hmem
    rcases hmem with hmem | (hmem | hmem) | hmem | hmem | hmem
    · cases hmem
    · have := getPage_nav_eq cfg env Url.start env.okStart Url.home
        (by rw [hevs]; exact hmem)
      exact absurd this (by decide)
    · exact check_login_no_nav env cfg.debug env.startPage Url.home
        (by rw [hevsL]; exact hmem)
    · cases hmem
    · cases hmem
    · cases hmem
  · intro hmem
    simp only [List.cons_append, List.mem_cons, List.mem_append] at hmem
    rcases hmem with hmem | (hmem | hmem) | hmem | hmem | hmem
    · cases hmem
    · have := getPage_nav_eq cfg env Url.start env.okStart Url.block
        (by rw [hevs]; exact hmem)
      exact absurd this (by decide)
    · exact check_login_no_nav env cfg.debug env.startPage Url.block
        (by rw [hevsL]; exact hmem)
    · cases hmem
    · cases hmem
    · cases hmem
  · intro el hmem
    simp only [List.cons_append, List.mem_cons, List.mem_append] at hmem
    rcases hmem with hmem | (hmem | hmem) | hmem | hmem | hmem
    · cases hmem
    · exact absurd (by rw [hevs]; exact hmem)
        (getPage_no_click cfg env Url.start env.okStart el)
    · exact check_login_click env cfg.debug env.startPage el
        (by rw [hevsL]; exact hmem)
    · cases hmem
    · cases hmem
    · cases hmem

/-- Witness for C1 at a concrete input: the start page shows no logout
element, the run exits with `SystemExit(1)`, logs the critical record and
never navigates to the home page. -/
theorem run_login_failure_witness :
    (run cfgSample loginFailEnv).2 = Except.error (Exn.systemExit 1) ∧
    Event.log LogLevel.critical "Login failed" ∈ (run cfgSample loginFailEnv).1 ∧
    Event.navigate Url.home ∉ (run cfgSample loginFailEnv).1 :=
  ⟨(run_login_failure cfgSample loginFailEnv rfl rfl).1,
   (run_login_failure cfgSample loginFailEnv rfl rfl).2.2.1,
   (run_login_failure cfgSample loginFailEnv rfl rfl).2.2.2.1⟩

lemma blockLoop_no_match (env : Env) (debug : Bool) (ap : Elem) (value : Bool) :
    ∀ radios : List Elem, (∀ e ∈ radios, ¬ radioMatches value e) →
      blockLoop env debug ap value radios = ([], Except.ok false) := by
  intro radios
  induction radios with
  | nil => intro _; rfl
  | cons r0 rest ih =>
    intro h
    have hm : radioMatches value r0 = false := by
      have := h r0 (List.mem_cons_self r0 rest)
      simpa using this
    simp only [blockLoop, hm, Bool.false_eq_true, if_false]
    exact ih (fun e he => h e (List.mem_cons_of_mem r0 he))

lemma blockLoop_found (env : Env) (debug : Bool) (ap : Elem) (value : Bool)
    (hL : env.loadOk = true) :
    ∀ (radios : List Elem) (r : Elem),
      List.find? (radioMatches value) radios = Option.some r →
      (blockLoop env debug ap value radios).2 = Except.ok true ∧
      (blockLoop env debug ap value radios).1.filter isClick
        = [Event.click r, Event.click ap] := by
  intro radios
  induction radios with
  | nil => intro r hr; simp [List.find?] at hr
  | cons r0 rest ih =>
    intro r hr
    cases hm : radioMatches value r0 with
    | true =>
      have hr0 : r = r0 := by
        rw [List.find?_cons_of_pos rest hm] at hr
        exact (Option.some.inj hr).symm
      subst hr0
      simp only [blockLoop, hm, if_true, wait_for_page_load, hL]
      constructor
      · trivial
      · cases hd : debug <;>
          simp [screenshotEvs, isClick, List.filter_append, List.filter]
    | false =>
      have hr2 : List.find? (radioMatches value) rest = Option.some r := by
        rw [List.find?_cons_of_neg rest (by simp [hm])] at hr
        exact hr
      simp only [blockLoop, hm, Bool.false_eq_true, if_false]
      exact ih r hr2

/-- Claim C2: with the `apply` element present, `block_services value` clicks
exactly the first `skeyword` radio matching the requested value
(`perschedule` when blocking, `never` when unblocking) followed by the
`apply` element and returns `True`; with no matching radio it clicks nothing
and returns `False`. -/
theorem block_services_action_clicks (env : Env) (debug : Bool) (page : Page)
    (value : Bool) (ap : Elem)
    (hL : env.loadOk = true)
    (hap : find_element_by_name page "apply" = Option.some ap) :
    (∀ r, List.find? (radioMatches value) (find_elements_by_name page "skeyword")
        = Option.some r →
      (block_services env debug page value).2 = Except.ok true ∧
      (block_services env debug page value).1.filter isClick
        = [Event.click r, Event.click ap]) ∧
    (List.find? (radioMatches value) (find_elements_by_name page "skeyword")
        = Option.none →
      (block_services env debug page value).2 = Except.ok false ∧
      (block_services env debug page value).1.filter isClick = []) := by
  constructor
  · intro r hr
    have h := blockLoop_found env debug ap value hL
      (find_elements_by_name page "skeyword") r hr
    simp only [block_services, hap]
    exact h
  · intro hr
    have hnone : ∀ e ∈ find_elements_by_name page "skeyword",
        ¬ radioMatches value e = true := List.find?_eq_none.mp hr
    have h := blockLoop_no_match env debug ap value
      (find_elements_by_name page "skeyword") hnone
    simp only [block_services, hap, h]
    exact ⟨trivial, rfl⟩

/-- Witness for C2 at a concrete input: on the sample block page, blocking
clicks the per-schedule radio then the apply button and returns `True`. -/
theorem block_services_action_clicks_witness :
    (block_services happyEnv false [applyE, radioPer, radioNev] true).2
      = Except.ok true ∧
    (block_services happyEnv false [applyE, radioPer, radioNev] true).1.filter isClick
      = [Event.click radioPer, Event.click applyE] :=
  (block_services_action_clicks happyEnv false [applyE, radioPer, radioNev] true
    applyE rfl rfl).1 radioPer rfl

deriving instance DecidableEq for Except

/-- An environment whose start-page navigation waits all time out. -/
def noLoadEnv : Env := { happyEnv with okStart := fun _ => false }

/-- Claim C6, evaluated at the failing input (every wait of the retry loop
times out): `get` performs the initial navigation plus exactly 5 retries (6
navigations), waits 15 seconds at most 5 times, sleeps a flat 2 seconds
between retries — but the exception it raises is the `NameError` caused by
`error_screenshot` referencing the never-imported `codecs` module, not the
`RuntimeError` of line 232, which is unreachable. -/
theorem get_retry_budget_exhausted :
    (getUrl cfgSample Url.start (fun _ => false)).2 = Except.error Exn.nameError ∧
    (getUrl cfgSample Url.start (fun _ => false)).1.countP isNavigate = 6 ∧
    (getUrl cfgSample Url.start (fun _ => false)).1.filter isWaitUrl
      = List.replicate 5 (Event.waitUrl 15) ∧
    (getUrl cfgSample Url.start (fun _ => false)).1.filter isSleep
      = List.replicate 5 (Event.sleepSecs 2) ∧
    (getUrl cfgSample Url.start (fun _ => false)).2 ≠ Except.error Exn.runtimeError := by
  decide

/-- Counterexample to C5 as stated: when the start page never loads within
the retry budget the process does exit non-zero (an uncaught exception), but
no critical-level record is ever logged — `error_screenshot` logs at error
level only. -/
theorem run_pageload_failure_not_critical :
    (run cfgSample noLoadEnv).2 = Except.error Exn.nameError ∧
    pyExitCode (run cfgSample noLoadEnv).2 = 1 ∧
    (run cfgSample noLoadEnv).1.countP isCriticalLog = 0 := by
  decide

/-- CLI arguments for the C4 failing input: credentials given, no `-a`
action flag. -/
def argsC4 : Args :=
  { verbose := 0
    browser_name := "chrome-headless"
    router_ip := Option.some "10.0.0.1"
    username := Option.some "admin"
    password := Option.some "pw"
    action := Option.none }

/-- Environment for the C4 failing input: no CGI variables. -/
def osenvC4 : OsEnv := { query_string := Option.none, gateway_interface := false }

/-- Config file for the C4 failing input: the action is given only in
config.json. -/
def configC4 : List (String × ConfigValue) := [("action", ConfigValue.str "reboot")]

/-- Claim C4, evaluated at the failing input: with `action` only in
config.json, `main` resolves the action to `reboot` and passes its own
validation, but constructs `NetgearAdmin` with `args.action` (line 380),
which is `None` — so the run completes with exit code 0 having clicked
nothing and never navigated to the reboot (home) page. -/
theorem main_ignores_config_action :
    getConfigValue argsC4 osenvC4 configC4 "action" (ConfigValue.bool false)
      = Except.ok (ConfigValue.str "reboot") ∧
    (mainProc argsC4 osenvC4 configC4 happyEnv).2 = Except.ok () ∧
    pyExitCode (mainProc argsC4 osenvC4 configC4 happyEnv).2 = 0 ∧
    (mainProc argsC4 osenvC4 configC4 happyEnv).1.countP isClick = 0 ∧
    Event.navigate Url.home ∉ (mainProc argsC4 osenvC4 configC4 happyEnv).1 := by
  decide

/-- The trace of the retry loop when every wait times out, with `n`
iterations left. -/
def exhaustTrace (cfg : AdminCfg) (u : Url) : Nat → List Event
  | 0 => errorScreenshotEvents
  | Nat.succ n =>
    Event.waitUrl 15 :: Event.log LogLevel.warning (getWarnMsg cfg u)
      :: Event.navigate u :: Event.sleepSecs 2 :: exhaustTrace cfg u n

lemma getAttempt_exhaust (cfg : AdminCfg) (u : Url) (ok : Nat → Bool) :
    ∀ (fuel x : Nat), (∀ i, i < 5 → ok i = false) → x + fuel = 5 →
      getAttempt cfg u ok x fuel
        = (exhaustTrace cfg u fuel, Except.error Exn.nameError) := by
  intro fuel
  induction fuel with
  | zero => intro x _ _; rfl
  | succ n ih =>
    intro x hok hx
    have hokx : ok x = false := hok x (by omega)
    simp only [getAttempt, hokx, Bool.false_eq_true, if_false, exhaustTrace]
    rw [ih (x + 1) hok (by omega)]

lemma exhaustTrace_countP_error (cfg : AdminCfg) (u : Url) :
    ∀ n, (exhaustTrace cfg u n).countP isErrorLog = 2 := by
  intro n
  induction n with
  | zero => rfl
  | succ m ih => simp [exhaustTrace, List.countP_cons, isErrorLog, ih]

lemma exhaustTrace_countP_critical (cfg : AdminCfg) (u : Url) :
    ∀ n, (exhaustTrace cfg u n).countP isCriticalLog = 0 := by
  intro n
  induction n with
  | zero => rfl
  | succ m ih => simp [exhaustTrace, List.countP_cons, isCriticalLog, ih]

/-- Claim C5, amended: when the start page fails to load within the retry
budget of `get`, the process exits non-zero — the uncaught exception (the
`codecs` `NameError`) propagates through `run`'s handler and out of `main` —
and error-level records are logged by `error_screenshot`, but no
critical-level record. -/
theorem run_pageload_failure_amended (cfg : AdminCfg) (env : Env)
    (hfail : ∀ i, i < 5 → env.okStart i = false) :
    (run cfg env).2 = Except.error Exn.nameError ∧
    pyExitCode (run cfg env).2 = 1 ∧
    0 < (run cfg env).1.countP isErrorLog ∧
    (run cfg env).1.countP isCriticalLog = 0 := by
  have hA := getAttempt_exhaust cfg Url.start env.okStart 5 0 hfail rfl
  have hgp : get_start_page cfg env
      = (Event.log LogLevel.info ("GET " ++ urlString cfg Url.start)
           :: Event.navigate Url.start :: exhaustTrace cfg Url.start 5,
         Except.error Exn.nameError) := by
    simp only [get_start_page, getPage, getUrl, hA, trBind]
  have hrun : run cfg env
      = (Event.getBrowser
           :: (Event.log LogLevel.info ("GET " ++ urlString cfg Url.start)
                :: Event.navigate Url.start :: exhaustTrace cfg Url.start 5)
           ++ [Event.quitBrowser],
         Except.error Exn.nameError) := by
    simp only [run, hgp]
  rw [hrun]
  refine ⟨rfl, rfl, ?_, ?_⟩
  · simp [List.countP_cons, List.countP_append, isErrorLog,
      exhaustTrace_countP_error cfg Url.start 5]
  · simp [List.countP_cons, List.countP_append, isCriticalLog,
      exhaustTrace_countP_critical cfg Url.start 5]

/-- Witness for the amended C5 at a concrete input: every start-page wait
times out, the process exit code is 1 and error-level records were logged. -/
theorem run_pageload_failure_amended_witness :
    pyExitCode (run cfgSample noLoadEnv).2 = 1 ∧
    0 < (run cfgSample noLoadEnv).1.countP isErrorLog :=
  ⟨(run_pageload_failure_amended cfgSample noLoadEnv (fun _ _ => rfl)).2.1,
   (run_pageload_failure_amended cfgSample noLoadEnv (fun _ _ => rfl)).2.2.1⟩

lemma getPage_trace_shape (cfg : AdminCfg) (env : Env) (u : Url) (ok : Nat → Bool) :
    ∃ t, (getPage cfg env u ok).1
      = Event.log LogLevel.info ("GET " ++ urlString cfg u) :: Event.navigate u :: t := by
  rcases hA : getAttempt cfg u ok 0 5 with ⟨A, r⟩
  cases r with
  | error e => exact ⟨A, by simp only [getPage, getUrl, hA, trBind]⟩
  | ok a =>
    cases hL : env.loadOk with
    | true =>
      refine ⟨A ++ ([Event.waitPageLoad] ++ screenshotEvs cfg.debug), ?_⟩
      simp only [getPage, getUrl, hA, trBind, wait_for_page_load, hL, if_true]
      simp
    | false =>
      refine ⟨A ++ [Event.waitPageLoad], ?_⟩
      simp only [getPage, getUrl, hA, trBind, wait_for_page_load, hL,
        Bool.false_eq_true, if_false]
      simp

/-- Claim C7: every run starts by acquiring the browser session, its first
navigation is to the login (start) page, its last event is quitting the
browser — on the success path, the login-failure path and the exception path
alike — and a navigation to an action page (home or block) happens only when
the start page was fetched successfully and the login check returned
`True`. -/
theorem run_fixed_order (cfg : AdminCfg) (env : Env) :
    (run cfg env).1.head? = Option.some Event.getBrowser ∧
    ((run cfg env).1.filter isNavigate).head? = Option.some (Event.navigate Url.start) ∧
    (run cfg env).1.getLast? = Option.some Event.quitBrowser ∧
    ((Event.navigate Url.home ∈ (run cfg env).1 ∨
        Event.navigate Url.block ∈ (run cfg env).1) →
      ((check_login env cfg.debug env.startPage).2.2 = true ∧
        (get_start_page cfg env).2 = Except.ok ())) := by
  rcases getPage_trace_shape cfg env Url.start env.okStart with ⟨t, ht⟩
  rcases hg : get_start_page cfg env with ⟨evs, r⟩
  have hevs : evs
      = Event.log LogLevel.info ("GET " ++ urlString cfg Url.start)
          :: Event.navigate Url.start :: t := by
    have h1 : (get_start_page cfg env).1 = evs := by rw [hg]
    have h2 : get_start_page cfg env = getPage cfg env Url.start env.okStart := rfl
    rw [h2] at h1
    rw [← h1, ht]
  have hnavt : ∀ u', Event.navigate u' ∈ t → u' = Url.start := by
    intro u' hmem
    exact getPage_nav_eq cfg env Url.start env.okStart u' (by rw [ht]; simp [hmem])
  cases r with
  | error e =>
    have hrun1 : (run cfg env).1
        = Event.getBrowser
            :: (Event.log LogLevel.info ("GET " ++ urlString cfg Url.start)
                 :: Event.navigate Url.start :: t)
            ++ [Event.quitBrowser] := by
      simp only [run, hg, hevs]
    refine ⟨?_, ?_, ?_, ?_⟩
    · rw [hrun1]; rfl
    · rw [hrun1]; simp [List.filter_cons, isNavigate]
    · rw [hrun1]
      exact List.getLast?_concat _
    · intro hmem
      exfalso
      rw [hrun1] at hmem
      rcases hmem with hmem | hmem <;>
      · simp only [List.cons_append, List.mem_cons, List.mem_append] at hmem
        rcases hmem with hmem | hmem | hmem | hmem | hmem
        · cases hmem
        · cases hmem
        · injection hmem with h2
          cases h2
        · have := hnavt _ hmem
          simp at this
        · simp at hmem
  | ok a =>
    cases a
    rcases hc : check_login env cfg.debug env.startPage with ⟨evsL, p1, b⟩
    have hnavL : ∀ u', Event.navigate u' ∉ evsL := by
      intro u' hmem
      exact check_login_no_nav env cfg.debug env.startPage u' (by rw [hc]; exact hmem)
    cases b with
    | false =>
      have hrun1 : (run cfg env).1
          = Event.getBrowser
              :: (Event.log LogLevel.info ("GET " ++ urlString cfg Url.start)
                   :: Event.navigate Url.start :: t)
              ++ evsL
              ++ [Event.log LogLevel.critical "Login failed", Event.quitBrowser] := by
        simp only [run, hg, hc, hevs]
      refine ⟨?_, ?_, ?_, ?_⟩
      · rw [hrun1]; rfl
      · rw [hrun1]; simp [List.filter_cons, isNavigate]
      · rw [hrun1]
        rw [List.getLast?_append_of_ne_nil]
        · rfl
        · simp
      · intro hmem
        exfalso
        rw [hrun1] at hmem
        rcases hmem with hmem | hmem <;>
        · simp only [List.cons_append, List.mem_cons, List.mem_append] at hmem
          rcases hmem with hmem | hmem | hmem | (hmem | hmem) | hmem | hmem | hmem
          · cases hmem
          · cases hmem
          · injection hmem with h2
            cases h2
          · have := hnavt _ hmem
            simp at this
          · exact hnavL _ hmem
          · cases hmem
          · cases hmem
          · cases hmem
    | true =>
      rcases hA : actionSteps cfg env with ⟨evsA, rA⟩
      have hrun1 : (run cfg env).1
          = Event.getBrowser
              :: (Event.log LogLevel.info ("GET " ++ urlString cfg Url.start)
                   :: Event.navigate Url.start :: t)
              ++ evsL ++ evsA ++ [Event.quitBrowser] := by
        cases rA with
        | ok a2 => simp only [run, hg, hc, hA, hevs]
        | error e2 => simp only [run, hg, hc, hA, hevs]
      refine ⟨?_, ?_, ?_, ?_⟩
      · rw [hrun1]; rfl
      · rw [hrun1]; simp [List.filter_cons, isNavigate]
      · rw [hrun1]
        exact List.getLast?_concat _
      · intro _
        exact ⟨rfl, rfl⟩

/-- Witness for C7 at a concrete input: the happy-path reboot run. -/
theorem run_fixed_order_witness :
    (run cfgSample happyEnv).1.head? = Option.some Event.getBrowser ∧
    ((run cfgSample happyEnv).1.filter isNavigate).head?
      = Option.some (Event.navigate Url.start) ∧
    (run cfgSample happyEnv).1.getLast? = Option.some Event.quitBrowser ∧
    ((Event.navigate Url.home ∈ (run cfgSample happyEnv).1 ∨
        Event.navigate Url.block ∈ (run cfgSample happyEnv).1) →
      ((check_login happyEnv cfgSample.debug happyEnv.startPage).2.2 = true ∧
        (get_start_page cfgSample happyEnv).2 = Except.ok ())) :=
  run_fixed_order cfgSample happyEnv

/-- Claim C8: for the reboot action on a healthy environment, the run clicks
the element with id `reboot` found on the home page — after navigating there
— and then accepts the confirmation alert, completing successfully. -/
theorem run_reboot_clicks_and_accepts (cfg : AdminCfg) (env : Env) (e : Elem)
    (ha : cfg.action = Option.some ACTION_REBOOT)
    (hL : env.loadOk = true)
    (hs : env.okStart 0 = true) (hh : env.okHome 0 = true)
    (hlogin : (check_login env cfg.debug env.startPage).2.2 = true)
    (he : find_element_by_id env.homePage "reboot" = Option.some e)
    (halert : env.rebootAlert = true) :
    (run cfg env).2 = Except.ok () ∧
    ∃ l1 l2, (run cfg env).1 = l1 ++ Event.click e :: l2 ∧
      Event.navigate Url.home ∈ l1 ∧ Event.acceptAlert ∈ l2 := by
  rcases hc : check_login env cfg.debug env.startPage with ⟨evsL, p1, b⟩
  have hb : b = true := by rw [hc] at hlogin; exact hlogin
  subst hb
  have hstart := getPage_first_try cfg env Url.start env.okStart hs hL
  have hhome := getPage_first_try cfg env Url.home env.okHome hh hL
  have hreboot : reboot env env.homePage
      = ([Event.click e, Event.sleepSecs 1, Event.switchToAlert, Event.acceptAlert],
         Except.ok ()) := by
    simp only [reboot, he, halert, if_true]
  have hif1 : (cfg.action == Option.some ACTION_REBOOT) = true := by
    rw [ha]; decide
  have hif2 : (cfg.action == Option.some ACTION_BLOCK) = false := by
    rw [ha]; decide
  have hif3 : (cfg.action == Option.some ACTION_UNBLOCK) = false := by
    rw [ha]; decide
  have hact : actionSteps cfg env
      = ((Event.log LogLevel.info ("GET " ++ urlString cfg Url.home)
            :: Event.navigate Url.home :: Event.waitUrl 15 :: Event.waitPageLoad
            :: screenshotEvs cfg.debug)
          ++ [Event.click e, Event.sleepSecs 1, Event.switchToAlert, Event.acceptAlert],
         Except.ok ()) := by
    simp only [actionSteps, hif1, hif2, hif3, if_true, Bool.or_self, Bool.false_eq_true,
      if_false, get_home_page, hhome, hreboot, trBind]
    simp
  have hrun : run cfg env
      = (Event.getBrowser
           :: (Event.log LogLevel.info ("GET " ++ urlString cfg Url.start)
                :: Event.navigate Url.start :: Event.waitUrl 15 :: Event.waitPageLoad
                :: screenshotEvs cfg.debug)
           ++ evsL
           ++ ((Event.log LogLevel.info ("GET " ++ urlString cfg Url.home)
                 :: Event.navigate Url.home :: Event.waitUrl 15 :: Event.waitPageLoad
                 :: screenshotEvs cfg.debug)
             ++ [Event.click e, Event.sleepSecs 1, Event.switchToAlert, Event.acceptAlert])
           ++ [Event.quitBrowser],
         Except.ok ()) := by
    simp only [run, get_start_page, hstart, hc, hact]
  refine ⟨by rw [hrun], ?_⟩
  refine ⟨Event.getBrowser
      :: (Event.log LogLevel.info ("GET " ++ urlString cfg Url.start)
           :: Event.navigate Url.start :: Event.waitUrl 15 :: Event.waitPageLoad
           :: screenshotEvs cfg.debug)
      ++ evsL
      ++ (Event.log LogLevel.info ("GET " ++ urlString cfg Url.home)
           :: Event.navigate Url.home :: Event.waitUrl 15 :: Event.waitPageLoad
           :: screenshotEvs cfg.debug),
    [Event.sleepSecs 1, Event.switchToAlert, Event.acceptAlert, Event.quitBrowser],
    ?_, ?_, ?_⟩
  · rw [hrun]
    simp [List.append_assoc]
  · simp
  · simp

/-- Witness for C8 at a concrete input: the happy-path reboot run succeeds
and both the reboot click and the alert acceptance happen, in that order. -/
theorem run_reboot_clicks_and_accepts_witness :
    (run cfgSample happyEnv).2 = Except.ok () ∧
    Event.click rebootE ∈ (run cfgSample happyEnv).1 ∧
    Event.acceptAlert ∈ (run cfgSample happyEnv).1 := by
  have h := run_reboot_clicks_and_accepts cfgSample happyEnv rebootE
    rfl rfl rfl rfl rfl rfl rfl
  refine ⟨h.1, ?_, ?_⟩
  · rcases h.2 with ⟨l1, l2, heq, _, _⟩
    rw [heq]
    simp
  · rcases h.2 with ⟨l1, l2, heq, _, hacc⟩
    rw [heq]
    simp [hacc]

/-- Claim C10: when the block-services page has an `apply` element but no
`skeyword` radio with the required value, `block_services` returns `False`,
`run` discards that result and completes normally, the process exits with
status 0, nothing at error level or above is logged, and the apply button is
never clicked. -/
theorem run_block_no_matching_radio (cfg : AdminCfg) (env : Env) (ap : Elem)
    (ha : cfg.action = Option.some ACTION_BLOCK ∨ cfg.action = Option.some ACTION_UNBLOCK)
    (hL : env.loadOk = true)
    (hs : env.okStart 0 = true) (hb : env.okBlock 0 = true)
    (hlogin : (check_login env cfg.debug env.startPage).2.2 = true)
    (hap : find_element_by_name env.blockPage "apply" = Option.some ap)
    (hnone : List.find? (radioMatches (cfg.action == Option.some ACTION_BLOCK))
        (find_elements_by_name env.blockPage "skeyword") = Option.none) :
    (block_services env cfg.debug env.blockPage
        (cfg.action == Option.some ACTION_BLOCK)).2 = Except.ok false ∧
    (run cfg env).2 = Except.ok () ∧
    pyExitCode (run cfg env).2 = 0 ∧
    Event.click ap ∉ (run cfg env).1 ∧
    (run cfg env).1.countP isErrorLevelLog = 0 := by
  rcases hc : check_login env cfg.debug env.startPage with ⟨evsL, p1, b⟩
  have hb2 : b = true := by rw [hc] at hlogin; exact hlogin
  subst hb2
  have hcT : (check_login env cfg.debug env.startPage).1 = evsL := by rw [hc]
  have hstart := getPage_first_try cfg env Url.start env.okStart hs hL
  have hblock := getPage_first_try cfg env Url.block env.okBlock hb hL
  have hbs : block_services env cfg.debug env.blockPage
      (cfg.action == Option.some ACTION_BLOCK) = ([], Except.ok false) := by
    have hnm : ∀ x ∈ find_elements_by_name env.blockPage "skeyword",
        ¬ radioMatches (cfg.action == Option.some ACTION_BLOCK) x = true :=
      List.find?_eq_none.mp hnone
    simp only [block_services, hap]
    exact blockLoop_no_match env cfg.debug ap _ _ hnm
  have hif1 : (cfg.action == Option.some ACTION_REBOOT) = false := by
    rcases ha with ha | ha <;> rw [ha] <;> decide
  have hif23 : ((cfg.action == Option.some ACTION_BLOCK)
      || (cfg.action == Option.some ACTION_UNBLOCK)) = true := by
    rcases ha with ha | ha <;> rw [ha] <;> decide
  have hact : actionSteps cfg env
      = (Event.log LogLevel.info ("GET " ++ urlString cfg Url.block)
           :: Event.navigate Url.block :: Event.waitUrl 15 :: Event.waitPageLoad
           :: screenshotEvs cfg.debug,
         Except.ok ()) := by
    simp only [actionSteps, hif1, hif23, Bool.false_eq_true, if_false, if_true,
      get_block_page, hblock, hbs, trBind]
    simp [Except.map]
  have hrun : run cfg env
      = (Event.getBrowser
           :: (Event.log LogLevel.info ("GET " ++ urlString cfg Url.start)
                :: Event.navigate Url.start :: Event.waitUrl 15 :: Event.waitPageLoad
                :: screenshotEvs cfg.debug)
           ++ evsL
           ++ (Event.log LogLevel.info ("GET " ++ urlString cfg Url.block)
                :: Event.navigate Url.block :: Event.waitUrl 15 :: Event.waitPageLoad
                :: screenshotEvs cfg.debug)
           ++ [Event.quitBrowser],
         Except.ok ()) := by
    simp only [run, get_start_page, hstart, hc, hact]
  have hrunT : (run cfg env).1
      = Event.getBrowser
          :: (Event.log LogLevel.info ("GET " ++ urlString cfg Url.start)
               :: Event.navigate Url.start :: Event.waitUrl 15 :: Event.waitPageLoad
               :: screenshotEvs cfg.debug)
          ++ evsL
          ++ (Event.log LogLevel.info ("GET " ++ urlString cfg Url.block)
               :: Event.navigate Url.block :: Event.waitUrl 15 :: Event.waitPageLoad
               :: screenshotEvs cfg.debug)
          ++ [Event.quitBrowser] := by rw [hrun]
  have hap2 : List.find? (fun el => el.name == Option.some "apply") env.blockPage
      = Option.some ap := hap
  have hapName : (ap.name == Option.some "apply") = true := by
    have h2 := List.find?_some hap2
    simpa using h2
  have hAll : ∀ x ∈ (run cfg env).1,
      ¬ x = Event.click ap ∧ isErrorLevelLog x = false := by
    rw [hrunT]
    have hshots : ∀ x ∈ screenshotEvs cfg.debug,
        ¬ x = Event.click ap ∧ isErrorLevelLog x = false :=
      screenshotEvs_all cfg.debug _ ⟨(by intro h2; cases h2), rfl⟩
        ⟨(by intro h2; cases h2), rfl⟩
    have hLpart : ∀ x ∈ evsL, ¬ x = Event.click ap ∧ isErrorLevelLog x = false := by
      intro x hx
      constructor
      · intro hxe
        subst hxe
        have hyes := check_login_click env cfg.debug env.startPage ap
          (by rw [hcT]; exact hx)
        have hyes2 : List.find? (fun el => el.name == Option.some "yes") env.startPage
            = Option.some ap := hyes
        have hyName : (ap.name == Option.some "yes") = true := by
          have h2 := List.find?_some hyes2
          simpa using h2
        simp only [beq_iff_eq] at hapName hyName
        rw [hapName] at hyName
        simp at hyName
      · exact check_login_no_errorLog env cfg.debug env.startPage x
          (by rw [hcT]; exact hx)
    refine List.forall_mem_append.mpr ⟨List.forall_mem_append.mpr
      ⟨List.forall_mem_append.mpr ⟨?_, hLpart⟩, ?_⟩, ?_⟩
    · refine List.forall_mem_cons.mpr ⟨⟨(by intro h2; cases h2), rfl⟩, ?_⟩
      refine List.forall_mem_cons.mpr ⟨⟨(by intro h2; cases h2), rfl⟩, ?_⟩
      refine List.forall_mem_cons.mpr ⟨⟨(by intro h2; cases h2), rfl⟩, ?_⟩
      refine List.forall_mem_cons.mpr ⟨⟨(by intro h2; cases h2), rfl⟩, ?_⟩
      refine List.forall_mem_cons.mpr ⟨⟨(by intro h2; cases h2), rfl⟩, hshots⟩
    · refine List.forall_mem_cons.mpr ⟨⟨(by intro h2; cases h2), rfl⟩, ?_⟩
      refine List.forall_mem_cons.mpr ⟨⟨(by intro h2; cases h2), rfl⟩, ?_⟩
      refine List.forall_mem_cons.mpr ⟨⟨(by intro h2; cases h2), rfl⟩, ?_⟩
      refine List.forall_mem_cons.mpr ⟨⟨(by intro h2; cases h2), rfl⟩, hshots⟩
    · refine List.forall_mem_cons.mpr ⟨⟨(by intro h2; cases h2), rfl⟩, by simp⟩
  refine ⟨by rw [hbs], by rw [hrun], by rw [hrun]; rfl, ?_, ?_⟩
  · intro hmem
    exact (hAll _ hmem).1 rfl
  · exact List.countP_eq_zero.mpr (fun e he => by simp [(hAll e he).2])

/-- A configuration requesting the block action. -/
def cfgBlock : AdminCfg := { cfgSample with action := Option.some "block" }

/-- A block page with an apply button but only the `never` radio, so blocking
finds no matching radio. -/
def noRadioEnv : Env := { happyEnv with blockPage := [applyE, radioNev] }

/-- Witness for C10 at a concrete input: blocking on a page whose only radio
is `never` returns `False`, the run exits 0, never clicks apply and logs
nothing at error level. -/
theorem run_block_no_matching_radio_witness :
    (block_services noRadioEnv cfgBlock.debug noRadioEnv.blockPage
        (cfgBlock.action == Option.some ACTION_BLOCK)).2 = Except.ok false ∧
    (run cfgBlock noRadioEnv).2 = Except.ok () ∧
    Event.click applyE ∉ (run cfgBlock noRadioEnv).1 ∧
    (run cfgBlock noRadioEnv).1.countP isErrorLevelLog = 0 := by
  have h := run_block_no_matching_radio cfgBlock noRadioEnv applyE
    (Or.inl rfl) rfl rfl rfl rfl rfl rfl
  exact ⟨h.1, h.2.1, h.2.2.2.1, h.2.2.2.2⟩
